import Mathlib

/-!
Shallow embedding of the niriswitcher window/workspace state-tracking engine
(`src/niriswitcher/_wm.py`): the state store and its event application
(`NiriWindowManager._process_event` and helpers), the query methods, and the
asynchronous line-read loop with its reconnect policy (`_on_line_read`,
`_start_socket_connection`).

Python dicts are modelled as insertion-ordered association lists, wall-clock
times (`time.time()`) as natural numbers used only for relative ordering, and
uncaught Python exceptions as explicit error values.  Mutations performed
before an exception is raised persist, exactly as in-place mutation of the
manager object does in the source.
-/

namespace Niriswitcher

/-- Insertion-ordered association list with integer keys, modelling a Python
`dict[int, V]`: `set` replaces the binding in place or appends a fresh one,
`get?` returns the first binding, `erase` removes the binding, and `values`
lists values in insertion order (Python `dict.values()`). -/
abbrev Dict (α : Type) : Type := List (Int × α)

def Dict.get? {α : Type} : Dict α → Int → Option α
  | [], _ => none
  | (k0, v0) :: rest, k => if k0 = k then some v0 else Dict.get? rest k

def Dict.set {α : Type} : Dict α → Int → α → Dict α
  | [], k, v => [(k, v)]
  | (k0, v0) :: rest, k, v =>
    if k0 = k then (k, v) :: rest else (k0, v0) :: Dict.set rest k v

def Dict.erase {α : Type} (d : Dict α) (k : Int) : Dict α :=
  List.filter (fun p => decide (p.1 ≠ k)) d

def Dict.values {α : Type} (d : Dict α) : List α :=
  List.map Prod.snd d

/-- The window fields consumed from a niri window JSON object.  `none` stands
for an absent or `null` field.  The wire object also carries an urgency flag;
it is listed here because the protocol delivers it, but neither
`Window.__init__` nor `Window.update` ever reads it. -/
structure WindowPayload where
  id : Int
  app_id : Option String
  workspace_id : Option Int
  title : Option String
  is_focused : Bool
  is_urgent : Bool
deriving DecidableEq

/-- The workspace fields consumed from a niri workspace JSON object. -/
structure WorkspacePayload where
  id : Int
  idx : Int
  name : Option String
  output : Option String
  is_active : Bool
  is_focused : Bool
deriving DecidableEq

/-- `Window` from `_wm.py`.  The derived display name, icon and app-info
fields are computed from external Gio desktop-file lookups and are not
modelled; no claim concerns them. -/
structure Window where
  id : Int
  workspace_id : Int
  app_id : Option String
  title : Option String
  is_urgent : Bool
  last_focus_time : Nat
deriving DecidableEq

/-- `Window.__init__`: `workspace_id` becomes `-1` exactly when the payload
field is `None` (the check is `is not None`, so a payload value of `0` is
kept here); `is_urgent` starts at the GObject property default `False`. -/
def Window.ofPayload (window : WindowPayload) (last_focus_time : Nat) : Window :=
  { id := window.id
    workspace_id := match window.workspace_id with
      | some w => w
      | none => -1
    app_id := window.app_id
    title := window.title
    is_urgent := false
    last_focus_time := last_focus_time }

/-- `Window.update`: sets `last_focus_time` to the current time; merges a
truthy (non-`None`, non-empty) title; a truthy (present and non-zero)
`workspace_id` is merged, and any falsy one (absent, `None`, or `0`) resets
the field to `-1`.  The payload urgency field is never read. -/
def Window.update (w : Window) (new : WindowPayload) (now : Nat) : Window :=
  let w1 : Window := { w with last_focus_time := now }
  let w2 : Window := match new.title with
    | some t => if t = "" then w1 else { w1 with title := some t }
    | none => w1
  match new.workspace_id with
  | some wid =>
    if wid = 0 then { w2 with workspace_id := -1 } else { w2 with workspace_id := wid }
  | none => { w2 with workspace_id := -1 }

/-- GObject `int` property default.  `Workspace.__init__` evaluates
`str(self.idx)` in its `super().__init__(...)` argument list, i.e. before the
constructor chain has stored the payload `idx`; a property read at that point
yields this default (`0`), not the payload value. -/
def idxPropertyDefault : Int := 0

/-- `Workspace` from `_wm.py`. -/
structure Workspace where
  id : Int
  idx : Int
  name : String
  output : Option String
  is_active : Bool
  is_focused : Bool
  is_urgent : Bool
  last_focus_time : Nat
deriving DecidableEq

/-- `Workspace.__init__`.  When the payload name is `null`, the fallback is
`str(self.idx)` read before initialization, hence
`toString idxPropertyDefault`; `is_urgent` is not passed and starts at the
property default `False`. -/
def Workspace.ofPayload (workspace : WorkspacePayload) (last_focus_time : Nat) : Workspace :=
  { id := workspace.id
    idx := workspace.idx
    name := match workspace.name with
      | some n => n
      | none => toString idxPropertyDefault
    output := workspace.output
    is_active := workspace.is_active
    is_focused := workspace.is_focused
    is_urgent := false
    last_focus_time := last_focus_time }

/-- `Workspace.identifier` (a derived property, read after initialization). -/
def Workspace.identifier (w : Workspace) : String :=
  match w.output with
  | some output => output ++ "-" ++ toString w.idx
  | none => toString w.idx

/-- One decoded event object: a single-key JSON object whose key is one of the
known tags (§4.3 of the spec, `_process_event` in the source). -/
inductive Event where
  | workspacesChanged (workspaces : List WorkspacePayload)
  | windowsChanged (windows : List WindowPayload)
  | windowClosed (id : Int)
  | windowOpenedOrChanged (window : WindowPayload)
  | windowFocusChanged (id : Int)
  | workspaceActivated (id : Int)
  | workspaceUrgencyChanged (id : Int) (urgent : Bool)
  | windowUrgencyChanged (id : Int) (urgent : Bool)
deriving DecidableEq

def Event.isWindowsChangedEvent : Event → Bool
  | .windowsChanged _ => true
  | _ => false

def Event.isWindowOpenedOrChangedEvent : Event → Bool
  | .windowOpenedOrChanged _ => true
  | _ => false

/-- A GObject signal emission of `NiriWindowManager`, with its payload. -/
inductive Emission where
  | windowClosed (w : Window)
  | windowOpened (w : Window)
  | windowFocusChanged (w : Window)
  | workspaceActivated (w : Workspace) (previous : Option Workspace)
  | workspaceUrgencyChanged (w : Workspace)
  | windowUrgencyChanged (w : Window)
deriving DecidableEq

/-- The mutable state of `NiriWindowManager`: the two maps, the two loaded
flags (`_windows_loaded`, `_workspaces_loaded`) and the two active-id
scalars. -/
structure NiriWindowManager where
  windows : Dict Window
  workspaces : Dict Workspace
  windowsLoaded : Bool
  workspacesLoaded : Bool
  active_workspace : Int
  active_window : Int
deriving DecidableEq

/-- The manager state right after `__init__`, before any event has been
processed (both GObject int properties default to `-1` by declaration). -/
def NiriWindowManager.init : NiriWindowManager :=
  { windows := []
    workspaces := []
    windowsLoaded := false
    workspacesLoaded := false
    active_workspace := -1
    active_window := -1 }

/-- The loop body of `on_workspaces_changed` for one payload entry. -/
def workspacesStep (now : Nat) (m : NiriWindowManager)
    (workspace : WorkspacePayload) : NiriWindowManager :=
  let last_focus_time := if workspace.is_focused then now + 1 else now
  let m := if workspace.is_focused then { m with active_workspace := workspace.id } else m
  let ws := Workspace.ofPayload workspace last_focus_time
  { m with workspaces := Dict.set m.workspaces workspace.id ws }

/-- `NiriWindowManager.on_workspaces_changed`: replace each named workspace
wholesale; a focused one gets focus time `now + 1` and becomes the active
workspace; finally mark workspaces as loaded.  Entries not named in the
payload are never touched. -/
def onWorkspacesChanged (m : NiriWindowManager) (workspaces : List WorkspacePayload)
    (now : Nat) : NiriWindowManager :=
  { List.foldl (workspacesStep now) m workspaces with workspacesLoaded := true }

/-- The loop body of `on_windows_changed` for one payload entry. -/
def windowsStep (now : Nat) (m : NiriWindowManager)
    (window : WindowPayload) : NiriWindowManager :=
  let last_focus_time := if window.is_focused then now + 1 else now
  let m := if window.is_focused then { m with active_window := window.id } else m
  let w := Window.ofPayload window last_focus_time
  { m with windows := Dict.set m.windows window.id w }

/-- `NiriWindowManager.on_windows_changed`: clear the whole window map, then
insert a fresh `Window` per payload entry; a focused one gets focus time
`now + 1` and becomes the active window; finally mark windows as loaded. -/
def onWindowsChanged (m : NiriWindowManager) (windows : List WindowPayload)
    (now : Nat) : NiriWindowManager :=
  let m0 := { m with windows := ([] : Dict Window) }
  { List.foldl (windowsStep now) m0 windows with windowsLoaded := true }

/-- A Python `KeyError` escaping the state store. -/
def keyError : String := "KeyError"

/-- A Python `AttributeError` (attribute access on `None`). -/
def attributeError : String := "AttributeError"

/-- Result of `_process_event`: the (possibly partially) mutated manager, the
signals emitted during processing, and the uncaught exception if one was
raised.  In the source the manager is mutated in place, so mutations made
before a raise persist in `state`. -/
structure ProcResult where
  state : NiriWindowManager
  emissions : List Emission
  error : Option String
deriving DecidableEq

/-- `NiriWindowManager._process_event`.  Note the `WorkspaceActivated` branch
indexes `self.workspaces[...]` directly: an untracked id raises `KeyError`
after `active_workspace` has already been reassigned. -/
def processEvent (m : NiriWindowManager) (obj : Event) (now : Nat) : ProcResult :=
  match obj with
  | .workspacesChanged workspaces =>
    ⟨onWorkspacesChanged m workspaces now, [], none⟩
  | .windowsChanged windows =>
    ⟨onWindowsChanged m windows now, [], none⟩
  | .windowClosed window_id =>
    match Dict.get? m.windows window_id with
    | some window =>
      ⟨{ m with windows := Dict.erase m.windows window_id },
        [Emission.windowClosed window], none⟩
    | none => ⟨m, [], none⟩
  | .windowOpenedOrChanged window =>
    match Dict.get? m.windows window.id with
    | some tracked =>
      ⟨{ m with windows := Dict.set m.windows window.id (tracked.update window now) },
        [], none⟩
    | none =>
      let w := Window.ofPayload window now
      ⟨{ m with windows := Dict.set m.windows window.id w },
        [Emission.windowOpened w], none⟩
  | .windowFocusChanged window_id =>
    match Dict.get? m.windows window_id with
    | some window =>
      let w := { window with last_focus_time := now }
      ⟨{ m with windows := Dict.set m.windows window_id w, active_window := window_id },
        [Emission.windowFocusChanged w], none⟩
    | none => ⟨m, [], none⟩
  | .workspaceActivated workspace_id =>
    let previous := m.active_workspace
    let m1 := { m with active_workspace := workspace_id }
    match Dict.get? m1.workspaces workspace_id with
    | some workspace =>
      let w := { workspace with last_focus_time := now }
      let m2 := { m1 with workspaces := Dict.set m1.workspaces workspace_id w }
      ⟨m2, [Emission.workspaceActivated w (Dict.get? m2.workspaces previous)], none⟩
    | none => ⟨m1, [], some keyError⟩
  | .workspaceUrgencyChanged workspace_id urgent =>
    match Dict.get? m.workspaces workspace_id with
    | some workspace =>
      let w := { workspace with is_urgent := urgent }
      ⟨{ m with workspaces := Dict.set m.workspaces workspace_id w },
        [Emission.workspaceUrgencyChanged w], none⟩
    | none => ⟨m, [], none⟩
  | .windowUrgencyChanged window_id urgent =>
    match Dict.get? m.windows window_id with
    | some window =>
      let w := { window with is_urgent := urgent }
      ⟨{ m with windows := Dict.set m.windows window_id w },
        [Emission.windowUrgencyChanged w], none⟩
    | none => ⟨m, [], none⟩

/-- Apply a list of events in order, one per line, at successive times.  An
uncaught exception ends processing (the read loop never queues another read
in that case), leaving the state mutated so far. -/
def applyEvents : NiriWindowManager → List Event → Nat → NiriWindowManager
  | m, [], _ => m
  | m, e :: rest, now =>
    match (processEvent m e now).error with
    | none => applyEvents (processEvent m e now).state rest (now + 1)
    | some _ => (processEvent m e now).state

/-- `NiriWindowManager.get_workspace`. -/
def NiriWindowManager.get_workspace (m : NiriWindowManager) (workspace_id : Int) :
    Option Workspace :=
  Dict.get? m.workspaces workspace_id

/-- `NiriWindowManager.get_active_workspace`: `None` before the first
workspace snapshot; afterwards a direct index `self.workspaces[...]`, which
raises `KeyError` when the active id is not tracked. -/
def NiriWindowManager.get_active_workspace (m : NiriWindowManager) :
    Except String (Option Workspace) :=
  if m.workspacesLoaded = false then Except.ok none
  else
    match Dict.get? m.workspaces m.active_workspace with
    | some w => Except.ok (some w)
    | none => Except.error keyError

/-- The shared shape of both counting-loop bodies in `get_n_windows`: a
window on an untracked workspace is skipped, otherwise the branch-specific
condition `q` decides whether it is counted. -/
def countStep (m : NiriWindowManager) (q : Window → Workspace → Bool)
    (count : Nat) (window : Window) : Nat :=
  match m.get_workspace window.workspace_id with
  | some workspace => if q window workspace then count + 1 else count
  | none => count

/-- `NiriWindowManager.get_n_windows`.  Windows whose `workspace_id` is not a
tracked workspace (in particular the `-1` sentinel) are skipped by both
counting loops. -/
def NiriWindowManager.get_n_windows (m : NiriWindowManager)
    (active_workspace : Bool) (active_output : Bool) : Except String Nat :=
  if m.windowsLoaded = false then Except.ok 0
  else
    match m.get_active_workspace with
    | Except.error e => Except.error e
    | Except.ok none => Except.ok 0
    | Except.ok (some current_workspace) =>
      if active_workspace = false then
        Except.ok (List.foldl (countStep m (fun _ workspace =>
          decide (active_output = false ∨ workspace.output = current_workspace.output)))
          0 (Dict.values m.windows))
      else
        Except.ok (List.foldl (countStep m (fun window workspace =>
          decide (window.workspace_id = current_workspace.id ∧
            (active_output = false ∨ workspace.output = current_workspace.output))))
          0 (Dict.values m.windows))

/-- The active-output filter function `f` defined inside
`NiriWindowManager.get_windows`, evaluated in a context where
`current_workspace` is known to be a workspace (not `None`). -/
def activeOutputPred (m : NiriWindowManager) (current_workspace : Workspace)
    (w : Window) : Bool :=
  match m.get_workspace w.workspace_id with
  | some workspace => decide (workspace.output = current_workspace.output)
  | none => false

/-- The active-output filter of `get_windows` applied to a window list:
windows on untracked workspaces are dropped; for a window on a tracked
workspace, `f` dereferences `current_workspace.output`, raising
`AttributeError` when `current_workspace` is `None` (workspaces not yet
loaded). -/
def filterActiveOutput (m : NiriWindowManager) (current_workspace : Option Workspace) :
    List Window → Except String (List Window)
  | [] => Except.ok []
  | w :: rest =>
    match m.get_workspace w.workspace_id with
    | none => filterActiveOutput m current_workspace rest
    | some workspace =>
      match current_workspace with
      | none => Except.error attributeError
      | some cw =>
        if workspace.output = cw.output then
          match filterActiveOutput m current_workspace rest with
          | Except.ok r => Except.ok (w :: r)
          | Except.error e => Except.error e
        else filterActiveOutput m current_workspace rest

/-- Stable insertion for descending sort by `last_focus_time` (Python
`sorted(..., key=attrgetter(...), reverse=True)` is a stable descending
sort). -/
def insertDesc (w : Window) : List Window → List Window
  | [] => [w]
  | x :: xs =>
    if x.last_focus_time > w.last_focus_time then x :: insertDesc w xs
    else w :: x :: xs

/-- Stable sort by descending `last_focus_time`. -/
def sortDesc (l : List Window) : List Window :=
  List.foldr insertDesc [] l

/-- `NiriWindowManager.get_windows`: optional active-output filter (which
fetches the active workspace, possibly raising), then the active-workspace or
explicit-workspace filter (windows with the `-1` sentinel always pass), then
a stable descending sort by focus time.  Not gated on `_windows_loaded`. -/
def NiriWindowManager.get_windows (m : NiriWindowManager) (active_workspace : Bool)
    (workspace_id : Option Int) (active_output : Bool) : Except String (List Window) :=
  let windows := Dict.values m.windows
  let step1 : Except String (List Window) :=
    if active_output = true then
      match m.get_active_workspace with
      | Except.error e => Except.error e
      | Except.ok current_workspace => filterActiveOutput m current_workspace windows
    else Except.ok windows
  match step1 with
  | Except.error e => Except.error e
  | Except.ok windows1 =>
    let windows2 := if active_workspace = true ∧ workspace_id = none then
        List.filter (fun w =>
          decide (w.workspace_id = -1 ∨ w.workspace_id = m.active_workspace)) windows1
      else windows1
    let windows3 := match workspace_id with
      | some wid =>
        List.filter (fun w =>
          decide (w.workspace_id = -1 ∨ w.workspace_id = wid)) windows2
      | none => windows2
    Except.ok (sortDesc windows3)

/-- One completion of the asynchronous line read in `_on_line_read`:
a line that decodes to an event, a line that fails JSON decoding, a falsy
(empty/EOF) line, or a `GLib.Error` read failure together with the outcome a
reconnect attempt would have. -/
inductive LineInput where
  | goodLine (e : Event)
  | badLine
  | emptyLine
  | readError (reconnectOk : Bool)
deriving DecidableEq

/-- State of the transport/read loop: the manager state, whether a next
asynchronous read is queued (the stream is live), the manager's
`_n_failed_connection_attempts` counter, the number of reconnect attempts
made from the retry path, and the number of fatal error-level logs emitted by
the retry-exhausted branch of `_on_line_read`. -/
structure LoopState where
  wm : NiriWindowManager
  readPending : Bool
  nFailedConnectionAttempts : Nat
  reconnectAttempts : Nat
  fatalErrorLogs : Nat
deriving DecidableEq

/-- Loop state after `__init__` succeeded: the initial connection subscribed
to the event stream, reset the counter to 0 and queued the first read. -/
def LoopState.initial : LoopState :=
  { wm := NiriWindowManager.init
    readPending := true
    nFailedConnectionAttempts := 0
    reconnectAttempts := 0
    fatalErrorLogs := 0 }

/-- `NiriWindowManager._start_socket_connection` as called from the retry
path of `_on_line_read`: on success it resets
`_n_failed_connection_attempts` to 0 and queues the next read; on a
`GLib.GError` it logs and re-raises, so the exception escapes `_on_line_read`
(whose handler is already executing) and no further read is queued. -/
def startSocketConnection (s : LoopState) (connectOk : Bool) : LoopState :=
  let s1 := { s with reconnectAttempts := s.reconnectAttempts + 1 }
  if connectOk then
    { s1 with nFailedConnectionAttempts := 0, readPending := true }
  else
    { s1 with readPending := false }

/-- `NiriWindowManager._on_line_read`.  Only `GLib.Error` is caught: a JSON
decode failure (`json.loads` raising) or a `KeyError` from `_process_event`
propagates out of the callback, so `_queue_next_line_read` is never reached
and the stream goes dead with all counters unchanged.  On a caught read
error the counter is incremented and, while it is below 3, a reconnect is
attempted; otherwise one fatal error is logged and no reconnect happens. -/
def onLineRead (s : LoopState) (input : LineInput) (now : Nat) : LoopState :=
  if s.readPending = false then s
  else
    match input with
    | .goodLine e =>
      let r := processEvent s.wm e now
      match r.error with
      | none => { s with wm := r.state, readPending := true }
      | some _ => { s with wm := r.state, readPending := false }
    | .badLine => { s with readPending := false }
    | .emptyLine => { s with readPending := true }
    | .readError reconnectOk =>
      let s1 := { s with nFailedConnectionAttempts := s.nFailedConnectionAttempts + 1 }
      if s1.nFailedConnectionAttempts < 3 then
        startSocketConnection s1 reconnectOk
      else
        { s1 with fatalErrorLogs := s1.fatalErrorLogs + 1, readPending := false }

/-- Run the read loop over a sequence of line-read completions. -/
def runLoop : LoopState → List LineInput → Nat → LoopState
  | s, [], _ => s
  | s, i :: rest, now => runLoop (onLineRead s i now) rest (now + 1)

/-- The predicate a window must satisfy to be counted by a `get_n_windows`
loop with branch condition `q`: its workspace is tracked and `q` holds. -/
def countPred (m : NiriWindowManager) (q : Window → Workspace → Bool)
    (window : Window) : Bool :=
  match m.get_workspace window.workspace_id with
  | some workspace => q window workspace
  | none => false

/-- The workspace-map consistency property of the spec: once the first
workspace snapshot has loaded, the active-workspace id names a tracked
workspace. -/
def wsInv (m : NiriWindowManager) : Prop :=
  m.workspacesLoaded = true →
    (Dict.get? m.workspaces m.active_workspace).isSome = true

/-- The side conditions under which event application preserves `wsInv`:
every workspace snapshot carries a focused workspace, and every
`WorkspaceActivated` references a tracked workspace id. -/
def goodWorkspaceEvent (m : NiriWindowManager) : Event → Prop
  | .workspacesChanged wsl => ∃ ws ∈ wsl, ws.is_focused = true
  | .workspaceActivated workspace_id =>
    (Dict.get? m.workspaces workspace_id).isSome = true
  | _ => True

/-- The reachable-counter invariant of the read loop: the fatal branch of
`_on_line_read` has never fired, the failure counter never exceeds 1, and it
is 0 whenever a read is pending. -/
def loopCounterOk (s : LoopState) : Prop :=
  s.fatalErrorLogs = 0 ∧ s.nFailedConnectionAttempts ≤ 1 ∧
    (s.readPending = true → s.nFailedConnectionAttempts = 0)

/-- A window payload whose `workspace_id` is `null`: the constructed window
carries the `-1` cross-workspace sentinel. -/
def crossPayload : WindowPayload := ⟨10, none, none, none, false, false⟩

/-- A focused workspace payload with id 1. -/
def ws1Focused : WorkspacePayload := ⟨1, 0, none, none, true, true⟩

/-- A workspace payload with id 1 and no focused flag. -/
def ws1Unfocused : WorkspacePayload := ⟨1, 0, none, none, true, false⟩

/-- An unfocused window payload with id 10 on workspace 1. -/
def win10on1 : WindowPayload := ⟨10, none, some 1, none, false, false⟩

/-- A focused window payload with id 11 on workspace 1. -/
def win11on1 : WindowPayload := ⟨11, none, some 1, none, true, false⟩

def titleT : String := "T"

/-- An update payload for window 10 whose urgency flag is set. -/
def urgentPayload : WindowPayload := ⟨10, none, some 1, some titleT, false, true⟩

def eDP1 : String := "eDP-1"

/-- The workspace payload of spec Scenario A, but with `idx = 5` so that the
payload index and the int-property default differ. -/
def wsC8Payload : WorkspacePayload := ⟨1, 5, none, some eDP1, true, true⟩

/-- State after a lone `WindowOpenedOrChanged` (no snapshot yet). -/
def mOpenedOnly : NiriWindowManager :=
  applyEvents NiriWindowManager.init [Event.windowOpenedOrChanged crossPayload] 0

/-- State after a workspace snapshot whose only entry is focused. -/
def mWs1 : NiriWindowManager :=
  applyEvents NiriWindowManager.init [Event.workspacesChanged [ws1Focused]] 0

/-- State after a workspace snapshot containing no focused workspace. -/
def mSnapNoFocus : NiriWindowManager :=
  applyEvents NiriWindowManager.init [Event.workspacesChanged [ws1Unfocused]] 0

/-- State with a loaded snapshot of one workspace and one window carrying the
`-1` workspace sentinel. -/
def mSentinel : NiriWindowManager :=
  applyEvents NiriWindowManager.init
    [Event.workspacesChanged [ws1Focused], Event.windowsChanged [crossPayload]] 0

/-- State with one workspace and two windows on it (11 focused). -/
def mTwoWin : NiriWindowManager :=
  applyEvents NiriWindowManager.init
    [Event.workspacesChanged [ws1Focused], Event.windowsChanged [win10on1, win11on1]] 0

/-- State with only a window snapshot containing window 10. -/
def mWin10 : NiriWindowManager :=
  applyEvents NiriWindowManager.init [Event.windowsChanged [win10on1]] 0

/-- The workspace value stored in `mWs1`, `mSentinel` and `mTwoWin`. -/
def cwWs1 : Workspace := Workspace.ofPayload ws1Focused 1

/-- The window value stored in `mWin10`. -/
def win10Val : Window := Window.ofPayload win10on1 0

/-- The window value stored in `mSentinel`. -/
def crossVal : Window := Window.ofPayload crossPayload 1

/-- The window value stored in `mOpenedOnly`. -/
def openedVal : Window := Window.ofPayload crossPayload 0

theorem Dict.get?_set {α : Type} (d : Dict α) (k k2 : Int) (v : α) :
    Dict.get? (Dict.set d k v) k2 = if k = k2 then some v else Dict.get? d k2 := by
  induction d with
  | nil => simp [Dict.set, Dict.get?]
  | cons p rest ih =>
    obtain ⟨k0, v0⟩ := p
    by_cases h0 : k0 = k
    · subst h0
      by_cases h2 : k0 = k2 <;> simp [Dict.set, Dict.get?, h2]
    · by_cases h2 : k0 = k2
      · subst h2
        have hk : ¬k = k0 := fun hc => h0 hc.symm
        simp [Dict.set, Dict.get?, h0, hk]
      · simp [Dict.set, Dict.get?, h0, h2, ih]

theorem Dict.get?_erase_self {α : Type} (d : Dict α) (k : Int) :
    Dict.get? (Dict.erase d k) k = none := by
  induction d with
  | nil => rfl
  | cons p rest ih =>
    obtain ⟨k0, v0⟩ := p
    by_cases h : k0 = k
    · simpa [Dict.erase, List.filter_cons, h] using ih
    · simpa [Dict.erase, List.filter_cons, h, Dict.get?] using ih

theorem Dict.get?_erase_ne {α : Type} (d : Dict α) (k k2 : Int) (h : k2 ≠ k) :
    Dict.get? (Dict.erase d k) k2 = Dict.get? d k2 := by
  induction d with
  | nil => rfl
  | cons p rest ih =>
    obtain ⟨k0, v0⟩ := p
    simp only [Dict.erase, decide_not] at ih ⊢
    rw [List.filter_cons]
    by_cases h0 : k0 = k
    · have hne : ¬k0 = k2 := fun hc => h (hc.symm.trans h0)
      have hk : ¬k = k2 := fun hc => h hc.symm
      simp [h0, hne, hk, Dict.get?, ih]
    · by_cases h2 : k0 = k2 <;> simp [h0, h2, h, Dict.get?, ih]

theorem List.filter_ext {α : Type} (p q : α → Bool) (l : List α)
    (h : ∀ a ∈ l, p a = q a) : List.filter p l = List.filter q l := by
  induction l with
  | nil => rfl
  | cons x xs ih =>
    have hx := h x (List.mem_cons_self x xs)
    have hxs := ih (fun a ha => h a (List.mem_cons_of_mem x ha))
    rw [List.filter_cons, List.filter_cons, hx, hxs]

theorem List.filter_filter_and {α : Type} (p q : α → Bool) (l : List α) :
    List.filter q (List.filter p l) = List.filter (fun a => p a && q a) l := by
  induction l with
  | nil => rfl
  | cons x xs ih =>
    cases hp : p x <;> cases hq : q x <;>
      simp [List.filter_cons, hp, hq, ih]

theorem List.filter_all_true {α : Type} (p : α → Bool) (l : List α)
    (h : ∀ a ∈ l, p a = true) : List.filter p l = l := by
  induction l with
  | nil => rfl
  | cons x xs ih =>
    have hx := h x (List.mem_cons_self x xs)
    have hxs := ih (fun a ha => h a (List.mem_cons_of_mem x ha))
    rw [List.filter_cons, hx, hxs]
    simp

theorem length_insertDesc (w : Window) (l : List Window) :
    (insertDesc w l).length = l.length + 1 := by
  induction l with
  | nil => rfl
  | cons x xs ih =>
    by_cases h : x.last_focus_time > w.last_focus_time <;>
      simp [insertDesc, h, ih]

theorem length_sortDesc (l : List Window) : (sortDesc l).length = l.length := by
  induction l with
  | nil => rfl
  | cons x xs ih =>
    simp [sortDesc] at ih ⊢
    rw [length_insertDesc, ih]

theorem foldl_countStep (m : NiriWindowManager) (q : Window → Workspace → Bool)
    (l : List Window) (n : Nat) :
    List.foldl (countStep m q) n l = n + (List.filter (countPred m q) l).length := by
  induction l generalizing n with
  | nil => simp
  | cons w rest ih =>
    rw [List.foldl_cons]
    cases hws : m.get_workspace w.workspace_id with
    | none => simp [countStep, countPred, List.filter_cons, hws, ih]
    | some workspace =>
      cases hq : q w workspace with
      | false => simp [countStep, countPred, List.filter_cons, hws, hq, ih]
      | true =>
        simp [countStep, countPred, List.filter_cons, hws, hq, ih]
        omega

theorem filterActiveOutput_some (m : NiriWindowManager) (cw : Workspace)
    (l : List Window) :
    filterActiveOutput m (some cw) l =
      Except.ok (List.filter (activeOutputPred m cw) l) := by
  induction l with
  | nil => rfl
  | cons w rest ih =>
    cases hws : m.get_workspace w.workspace_id with
    | none => simp [filterActiveOutput, activeOutputPred, List.filter_cons, hws, ih]
    | some workspace =>
      by_cases ho : workspace.output = cw.output <;>
        simp [filterActiveOutput, activeOutputPred, List.filter_cons, hws, ho, ih]

/-- C1, counterexample: feeding a line that fails JSON parsing to the read
callback leaves the failure counter unchanged but does not issue the next
read — the claim that the loop continues reading is false on the code. -/
theorem claim_C1_counterexample :
    LoopState.initial.readPending = true ∧
    (onLineRead LoopState.initial LineInput.badLine 0).readPending = false ∧
    (onLineRead LoopState.initial LineInput.badLine 0).nFailedConnectionAttempts =
      LoopState.initial.nFailedConnectionAttempts := by
  decide

/-- C1 (amended): a line that fails JSON parsing raises a `JSONDecodeError`
that the handler (which catches only `GLib.Error`) does not catch: the
manager state, the reconnect failure counter, the reconnect-attempt count and
the fatal-log count are all unchanged, but the next read is never issued, so
the event stream terminates. -/
theorem claim_C1_amended (s : LoopState) (now : Nat) (h : s.readPending = true) :
    onLineRead s LineInput.badLine now = { s with readPending := false } := by
  simp [onLineRead, h]

theorem claim_C1_witness :
    LoopState.initial.readPending = true ∧
    onLineRead LoopState.initial LineInput.badLine 0 =
      { LoopState.initial with readPending := false } :=
  ⟨rfl, claim_C1_amended LoopState.initial 0 rfl⟩

theorem loopCounterOk_onLineRead (s : LoopState) (i : LineInput) (now : Nat)
    (h : loopCounterOk s) : loopCounterOk (onLineRead s i now) := by
  obtain ⟨h1, h2, h3⟩ := h
  cases hrp : s.readPending with
  | false => simpa [onLineRead, hrp] using ⟨h1, h2, h3⟩
  | true =>
    have h0 : s.nFailedConnectionAttempts = 0 := h3 hrp
    cases i with
    | goodLine e =>
      cases he : (processEvent s.wm e now).error with
      | none => simp [onLineRead, hrp, he, loopCounterOk, h1, h0]
      | some err => simp [onLineRead, hrp, he, loopCounterOk, h1, h0]
    | badLine => simp [onLineRead, hrp, loopCounterOk, h1, h0]
    | emptyLine => simp [onLineRead, hrp, loopCounterOk, h1, h0]
    | readError reconnectOk =>
      cases reconnectOk with
      | true => simp [onLineRead, hrp, loopCounterOk, startSocketConnection, h0, h1]
      | false => simp [onLineRead, hrp, loopCounterOk, startSocketConnection, h0, h1]

theorem loopCounterOk_runLoop (s : LoopState) (inputs : List LineInput) (t : Nat)
    (h : loopCounterOk s) : loopCounterOk (runLoop s inputs t) := by
  induction inputs generalizing s t with
  | nil => exact h
  | cons i rest ih => exact ih (onLineRead s i t) (t + 1) (loopCounterOk_onLineRead s i t h)

/-- C3, counterexample: three consecutive read failures whose reconnects
succeed leave the loop still retrying (reconnect attempted each time), with
no fatal log, and a fourth failure triggers a fourth reconnect attempt —
refuting that the transport stops after 3 consecutive failures with one
fatal log. -/
theorem claim_C3_counterexample :
    (runLoop LoopState.initial [LineInput.readError true, LineInput.readError true,
      LineInput.readError true] 0).reconnectAttempts = 3 ∧
    (runLoop LoopState.initial [LineInput.readError true, LineInput.readError true,
      LineInput.readError true] 0).fatalErrorLogs = 0 ∧
    (runLoop LoopState.initial [LineInput.readError true, LineInput.readError true,
      LineInput.readError true] 0).readPending = true ∧
    (runLoop LoopState.initial [LineInput.readError true, LineInput.readError true,
      LineInput.readError true, LineInput.readError true] 0).reconnectAttempts = 4 := by
  decide

/-- C3 (amended): each read error increments the failure counter, but a
successful reconnect (not a successful read) resets it to 0, and a failed
reconnect raises and ends the loop; hence, over every possible sequence of
line-read outcomes from the initial state, the counter never exceeds 1, the
3-failure cutoff is unreachable, and the fatal error is never logged —
consecutive read failures with successful reconnects retry without bound. -/
theorem claim_C3_amended (inputs : List LineInput) (t : Nat) :
    (runLoop LoopState.initial inputs t).fatalErrorLogs = 0 ∧
    (runLoop LoopState.initial inputs t).nFailedConnectionAttempts ≤ 1 := by
  have h := loopCounterOk_runLoop LoopState.initial inputs t
    (by constructor <;> simp [LoopState.initial])
  exact ⟨h.1, h.2.1⟩

/-- C5, counterexample: activating untracked workspace 2 from a state that
only tracks workspace 1 reassigns the active-workspace id but emits nothing
and raises a `KeyError` that escapes the state store — refuting that the
notification is emitted and that no exception crosses the boundary. -/
theorem claim_C5_counterexample :
    Dict.get? mWs1.workspaces 2 = none ∧
    (processEvent mWs1 (Event.workspaceActivated 2) 5).state.active_workspace = 2 ∧
    (processEvent mWs1 (Event.workspaceActivated 2) 5).emissions = [] ∧
    (processEvent mWs1 (Event.workspaceActivated 2) 5).error = some keyError := by
  decide

/-- C5 (amended): a `WorkspaceActivated` event for an untracked workspace id
sets active-workspace-id to that id and then raises `KeyError` at the direct
map index: no `workspace-activated` notification is emitted and the
exception escapes event processing (terminating the read loop). -/
theorem claim_C5_amended (m : NiriWindowManager) (workspace_id : Int) (now : Nat)
    (h : Dict.get? m.workspaces workspace_id = none) :
    processEvent m (Event.workspaceActivated workspace_id) now =
      ⟨{ m with active_workspace := workspace_id }, [], some keyError⟩ := by
  simp [processEvent, h]

theorem claim_C5_witness :
    Dict.get? mWs1.workspaces 2 = none ∧
    processEvent mWs1 (Event.workspaceActivated 2) 5 =
      ⟨{ mWs1 with active_workspace := 2 }, [], some keyError⟩ :=
  ⟨by decide, claim_C5_amended mWs1 2 5 (by decide)⟩

/-- C8, code bug: for a workspace payload with `name = null` and `idx = 5`,
the constructor's fallback display name is `str(self.idx)` evaluated before
`idx` has been initialized, yielding the int-property default `"0"` instead
of `"5"`; the derived identifier (computed after initialization) is correct. -/
theorem claim_C8_eval :
    (Workspace.ofPayload wsC8Payload 0).name = toString idxPropertyDefault ∧
    (Workspace.ofPayload wsC8Payload 0).name = "0" ∧
    wsC8Payload.idx = 5 ∧
    toString wsC8Payload.idx = "5" ∧
    (Workspace.ofPayload wsC8Payload 0).name ≠ toString wsC8Payload.idx ∧
    (Workspace.ofPayload wsC8Payload 0).identifier = "eDP-1-5" := by
  refine ⟨rfl, rfl, rfl, rfl, by decide, rfl⟩

/-- C9: a `WindowClosed` event for a tracked id removes exactly that entry
(the id resolves to nothing afterwards, all other ids are untouched) and
emits `window-closed` once with the removed window; for an untracked id the
state is unchanged, nothing is emitted, and no error is raised. -/
theorem claim_C9 (m : NiriWindowManager) (window_id : Int) (now : Nat) :
    (∀ w, Dict.get? m.windows window_id = some w →
      processEvent m (Event.windowClosed window_id) now =
        ⟨{ m with windows := Dict.erase m.windows window_id },
          [Emission.windowClosed w], none⟩ ∧
      Dict.get? (Dict.erase m.windows window_id) window_id = none ∧
      (∀ k, k ≠ window_id →
        Dict.get? (Dict.erase m.windows window_id) k = Dict.get? m.windows k)) ∧
    (Dict.get? m.windows window_id = none →
      processEvent m (Event.windowClosed window_id) now = ⟨m, [], none⟩) := by
  constructor
  · intro w hw
    exact ⟨by simp [processEvent, hw], Dict.get?_erase_self m.windows window_id,
      fun k hk => Dict.get?_erase_ne m.windows window_id k hk⟩
  · intro hn
    simp [processEvent, hn]

theorem claim_C9_witness :
    Dict.get? mWin10.windows 10 = some win10Val ∧
    processEvent mWin10 (Event.windowClosed 10) 7 =
      ⟨{ mWin10 with windows := Dict.erase mWin10.windows 10 },
        [Emission.windowClosed win10Val], none⟩ :=
  ⟨by decide, ((claim_C9 mWin10 10 7).1 win10Val (by decide)).1⟩

theorem foldl_workspacesStep_get?_notmem (now : Nat) (wsl : List WorkspacePayload)
    (m : NiriWindowManager) (k : Int) (h : ∀ ws ∈ wsl, ws.id ≠ k) :
    Dict.get? (List.foldl (workspacesStep now) m wsl).workspaces k =
      Dict.get? m.workspaces k := by
  induction wsl generalizing m with
  | nil => rfl
  | cons ws rest ih =>
    have hws : ws.id ≠ k := h ws (List.mem_cons_self ws rest)
    have hrest := fun a ha => h a (List.mem_cons_of_mem ws ha)
    rw [List.foldl_cons, ih (workspacesStep now m ws) hrest]
    by_cases hf : ws.is_focused = true <;>
      simp [workspacesStep, hf, Dict.get?_set, hws]

theorem foldl_windowsStep_get?_notmem (now : Nat) (wl : List WindowPayload)
    (m : NiriWindowManager) (k : Int) (h : ∀ win ∈ wl, win.id ≠ k) :
    Dict.get? (List.foldl (windowsStep now) m wl).windows k =
      Dict.get? m.windows k := by
  induction wl generalizing m with
  | nil => rfl
  | cons win rest ih =>
    have hwin : win.id ≠ k := h win (List.mem_cons_self win rest)
    have hrest := fun a ha => h a (List.mem_cons_of_mem win ha)
    rw [List.foldl_cons, ih (windowsStep now m win) hrest]
    by_cases hf : win.is_focused = true <;>
      simp [windowsStep, hf, Dict.get?_set, hwin]

/-- C10: a `WorkspacesChanged` event never removes workspace entries — every
workspace id absent from the payload keeps its exact previous binding — while
`WindowsChanged` first clears the window map, so a window id absent from its
payload is gone afterwards. -/
theorem claim_C10 (m : NiriWindowManager) (wsl : List WorkspacePayload)
    (wl : List WindowPayload) (now : Nat) (k : Int) :
    ((∀ ws ∈ wsl, ws.id ≠ k) →
      Dict.get? (processEvent m (Event.workspacesChanged wsl) now).state.workspaces k =
        Dict.get? m.workspaces k) ∧
    ((∀ win ∈ wl, win.id ≠ k) →
      Dict.get? (processEvent m (Event.windowsChanged wl) now).state.windows k = none) := by
  constructor
  · intro h
    show Dict.get? (onWorkspacesChanged m wsl now).workspaces k = Dict.get? m.workspaces k
    simp only [onWorkspacesChanged]
    exact foldl_workspacesStep_get?_notmem now wsl m k h
  · intro h
    show Dict.get? (onWindowsChanged m wl now).windows k = none
    simp only [onWindowsChanged]
    rw [foldl_windowsStep_get?_notmem now wl { m with windows := ([] : Dict Window) } k h]
    rfl

theorem claim_C10_witness :
    (∀ ws ∈ [ws1Focused], ws.id ≠ 99) ∧
    Dict.get? (processEvent mWs1 (Event.workspacesChanged [ws1Focused]) 1).state.workspaces 99 =
      Dict.get? mWs1.workspaces 99 :=
  ⟨by decide, (claim_C10 mWs1 [ws1Focused] [] 1 99).1 (by decide)⟩

theorem foldl_workspacesStep_preserves (now : Nat) (wsl : List WorkspacePayload)
    (m : NiriWindowManager) :
    (List.foldl (workspacesStep now) m wsl).windows = m.windows ∧
    (List.foldl (workspacesStep now) m wsl).windowsLoaded = m.windowsLoaded ∧
    (List.foldl (workspacesStep now) m wsl).active_window = m.active_window := by
  induction wsl generalizing m with
  | nil => exact ⟨rfl, rfl, rfl⟩
  | cons ws rest ih =>
    rw [List.foldl_cons]
    have hstep : (workspacesStep now m ws).windows = m.windows ∧
        (workspacesStep now m ws).windowsLoaded = m.windowsLoaded ∧
        (workspacesStep now m ws).active_window = m.active_window := by
      by_cases hf : ws.is_focused = true <;> simp [workspacesStep, hf]
    obtain ⟨s1, s2, s3⟩ := hstep
    obtain ⟨i1, i2, i3⟩ := ih (workspacesStep now m ws)
    exact ⟨i1.trans s1, i2.trans s2, i3.trans s3⟩

theorem foldl_windowsStep_preserves (now : Nat) (wl : List WindowPayload)
    (m : NiriWindowManager) :
    (List.foldl (windowsStep now) m wl).workspaces = m.workspaces ∧
    (List.foldl (windowsStep now) m wl).workspacesLoaded = m.workspacesLoaded ∧
    (List.foldl (windowsStep now) m wl).active_workspace = m.active_workspace := by
  induction wl generalizing m with
  | nil => exact ⟨rfl, rfl, rfl⟩
  | cons win rest ih =>
    rw [List.foldl_cons]
    have hstep : (windowsStep now m win).workspaces = m.workspaces ∧
        (windowsStep now m win).workspacesLoaded = m.workspacesLoaded ∧
        (windowsStep now m win).active_workspace = m.active_workspace := by
      by_cases hf : win.is_focused = true <;> simp [windowsStep, hf]
    obtain ⟨s1, s2, s3⟩ := hstep
    obtain ⟨i1, i2, i3⟩ := ih (windowsStep now m win)
    exact ⟨i1.trans s1, i2.trans s2, i3.trans s3⟩

theorem processEvent_windowsLoaded (m : NiriWindowManager) (e : Event) (now : Nat)
    (h : e.isWindowsChangedEvent = false) :
    (processEvent m e now).state.windowsLoaded = m.windowsLoaded := by
  cases e with
  | windowsChanged wl => simp [Event.isWindowsChangedEvent] at h
  | workspacesChanged wsl =>
    show (onWorkspacesChanged m wsl now).windowsLoaded = m.windowsLoaded
    simp only [onWorkspacesChanged]
    exact (foldl_workspacesStep_preserves now wsl m).2.1
  | windowClosed window_id =>
    cases hw : Dict.get? m.windows window_id <;> simp [processEvent, hw]
  | windowOpenedOrChanged w =>
    cases hw : Dict.get? m.windows w.id <;> simp [processEvent, hw]
  | windowFocusChanged window_id =>
    cases hw : Dict.get? m.windows window_id <;> simp [processEvent, hw]
  | workspaceActivated workspace_id =>
    cases hw : Dict.get? m.workspaces workspace_id <;> simp [processEvent, hw]
  | workspaceUrgencyChanged workspace_id urgent =>
    cases hw : Dict.get? m.workspaces workspace_id <;> simp [processEvent, hw]
  | windowUrgencyChanged window_id urgent =>
    cases hw : Dict.get? m.windows window_id <;> simp [processEvent, hw]

theorem processEvent_windows_nil (m : NiriWindowManager) (e : Event) (now : Nat)
    (hm : m.windows = []) (h1 : e.isWindowsChangedEvent = false)
    (h2 : e.isWindowOpenedOrChangedEvent = false) :
    (processEvent m e now).state.windows = [] := by
  cases e with
  | windowsChanged wl => simp [Event.isWindowsChangedEvent] at h1
  | windowOpenedOrChanged w => simp [Event.isWindowOpenedOrChangedEvent] at h2
  | workspacesChanged wsl =>
    show (onWorkspacesChanged m wsl now).windows = []
    simp only [onWorkspacesChanged]
    exact (foldl_workspacesStep_preserves now wsl m).1.trans hm
  | windowClosed window_id => simp [processEvent, hm, Dict.get?]
  | windowFocusChanged window_id => simp [processEvent, hm, Dict.get?]
  | windowUrgencyChanged window_id urgent => simp [processEvent, hm, Dict.get?]
  | workspaceActivated workspace_id =>
    cases hw : Dict.get? m.workspaces workspace_id <;> simp [processEvent, hw, hm]
  | workspaceUrgencyChanged workspace_id urgent =>
    cases hw : Dict.get? m.workspaces workspace_id <;> simp [processEvent, hw, hm]

theorem applyEvents_windowsLoaded (events : List Event) (m : NiriWindowManager) (t : Nat)
    (hm : m.windowsLoaded = false)
    (h : ∀ e ∈ events, e.isWindowsChangedEvent = false) :
    (applyEvents m events t).windowsLoaded = false := by
  induction events generalizing m t with
  | nil => exact hm
  | cons e rest ih =>
    have he := h e (List.mem_cons_self e rest)
    have hrest := fun a ha => h a (List.mem_cons_of_mem e ha)
    have hstep := (processEvent_windowsLoaded m e t he).trans hm
    cases herr : (processEvent m e t).error with
    | none =>
      rw [applyEvents]
      simp only [herr]
      exact ih (processEvent m e t).state (t + 1) hstep hrest
    | some err =>
      rw [applyEvents]
      simp only [herr]
      exact hstep

theorem applyEvents_windows_nil (events : List Event) (m : NiriWindowManager) (t : Nat)
    (hm : m.windows = [])
    (h1 : ∀ e ∈ events, e.isWindowsChangedEvent = false)
    (h2 : ∀ e ∈ events, e.isWindowOpenedOrChangedEvent = false) :
    (applyEvents m events t).windows = [] := by
  induction events generalizing m t with
  | nil => exact hm
  | cons e rest ih =>
    have he1 := h1 e (List.mem_cons_self e rest)
    have he2 := h2 e (List.mem_cons_self e rest)
    have hr1 := fun a ha => h1 a (List.mem_cons_of_mem e ha)
    have hr2 := fun a ha => h2 a (List.mem_cons_of_mem e ha)
    have hstep := processEvent_windows_nil m e t hm he1 he2
    cases herr : (processEvent m e t).error with
    | none =>
      rw [applyEvents]
      simp only [herr]
      exact ih (processEvent m e t).state (t + 1) hstep hr1 hr2
    | some err =>
      rw [applyEvents]
      simp only [herr]
      exact hstep

theorem get_n_windows_not_loaded (m : NiriWindowManager) (aw ao : Bool)
    (h : m.windowsLoaded = false) : m.get_n_windows aw ao = Except.ok 0 := by
  simp [NiriWindowManager.get_n_windows, h]

theorem get_windows_nil (m : NiriWindowManager) (aw : Bool) (wsid : Option Int)
    (h : m.windows = []) : m.get_windows aw wsid false = Except.ok [] := by
  cases wsid <;> simp [NiriWindowManager.get_windows, h, Dict.values, sortDesc]

theorem get_windows_nil_active_output (m : NiriWindowManager) (aw : Bool)
    (wsid : Option Int) (h : m.windows = []) :
    m.get_windows aw wsid true =
      match m.get_active_workspace with
      | Except.ok _ => Except.ok []
      | Except.error e => Except.error e := by
  cases hact : m.get_active_workspace with
  | error e =>
    cases wsid <;> simp [NiriWindowManager.get_windows, h, hact, Dict.values]
  | ok cw =>
    cases wsid <;>
      simp [NiriWindowManager.get_windows, h, hact, Dict.values, filterActiveOutput,
        sortDesc]

/-- C2, counterexample: a sequence containing a `WindowOpenedOrChanged` but
no `WindowsChanged` leaves `get_windows` (which is not gated on the
windows-loaded flag) returning the inserted window, not an empty sequence;
and even with no insertion at all, a no-focus workspace snapshot makes
`get_windows` with the active-output filter raise `KeyError` instead of
returning an empty sequence. -/
theorem claim_C2_counterexample :
    (∀ e ∈ [Event.windowOpenedOrChanged crossPayload], e.isWindowsChangedEvent = false) ∧
    mOpenedOnly.get_windows true none false = Except.ok [openedVal] ∧
    [openedVal] ≠ ([] : List Window) ∧
    (∀ e ∈ [Event.workspacesChanged [ws1Unfocused]],
      e.isWindowsChangedEvent = false ∧ e.isWindowOpenedOrChangedEvent = false) ∧
    mSnapNoFocus.get_windows true none true = Except.error keyError := by
  exact ⟨by decide, by rfl, by decide, by decide, by rfl⟩

/-- C2 (amended): for every event sequence containing no `WindowsChanged`,
`get_n_windows` returns 0 for all filter arguments (it is gated on the
windows-loaded flag).  `get_windows` is not so gated: when the sequence also
contains no `WindowOpenedOrChanged` the window map is still empty and
`get_windows` returns the empty sequence for every filter combination with
the active-output filter off, while with it on it returns the empty sequence
exactly when the active-workspace lookup succeeds and otherwise propagates
that lookup's `KeyError` (reachable after a snapshot with no focused
workspace). -/
theorem claim_C2_amended (events : List Event) (t : Nat)
    (hwc : ∀ e ∈ events, e.isWindowsChangedEvent = false) :
    (∀ aw ao, (applyEvents NiriWindowManager.init events t).get_n_windows aw ao =
      Except.ok 0) ∧
    ((∀ e ∈ events, e.isWindowOpenedOrChangedEvent = false) →
      (applyEvents NiriWindowManager.init events t).windows = [] ∧
      (∀ aw wsid,
        (applyEvents NiriWindowManager.init events t).get_windows aw wsid false =
          Except.ok []) ∧
      (∀ aw wsid,
        (applyEvents NiriWindowManager.init events t).get_windows aw wsid true =
          match (applyEvents NiriWindowManager.init events t).get_active_workspace with
          | Except.ok _ => Except.ok []
          | Except.error e => Except.error e)) := by
  constructor
  · intro aw ao
    exact get_n_windows_not_loaded _ aw ao (applyEvents_windowsLoaded events _ t rfl hwc)
  · intro hop
    have hnil := applyEvents_windows_nil events NiriWindowManager.init t rfl hwc hop
    exact ⟨hnil, fun aw wsid => get_windows_nil _ aw wsid hnil,
      fun aw wsid => get_windows_nil_active_output _ aw wsid hnil⟩

theorem claim_C2_witness :
    (∀ e ∈ [Event.windowClosed 3], e.isWindowsChangedEvent = false) ∧
    (applyEvents NiriWindowManager.init [Event.windowClosed 3] 0).get_n_windows true false =
      Except.ok 0 :=
  ⟨by decide, (claim_C2_amended [Event.windowClosed 3] 0 (by decide)).1 true false⟩

theorem foldl_workspacesStep_active_isSome (now : Nat) (wsl : List WorkspacePayload)
    (m : NiriWindowManager)
    (h : (Dict.get? m.workspaces m.active_workspace).isSome = true) :
    (Dict.get? (List.foldl (workspacesStep now) m wsl).workspaces
      (List.foldl (workspacesStep now) m wsl).active_workspace).isSome = true := by
  induction wsl generalizing m with
  | nil => exact h
  | cons ws rest ih =>
    rw [List.foldl_cons]
    apply ih
    by_cases hf : ws.is_focused = true
    · simp [workspacesStep, hf, Dict.get?_set]
    · by_cases hk : ws.id = m.active_workspace <;>
        simp [workspacesStep, hf, Dict.get?_set, hk, h]

theorem foldl_workspacesStep_focused_isSome (now : Nat) (wsl : List WorkspacePayload)
    (m : NiriWindowManager) (h : ∃ ws ∈ wsl, ws.is_focused = true) :
    (Dict.get? (List.foldl (workspacesStep now) m wsl).workspaces
      (List.foldl (workspacesStep now) m wsl).active_workspace).isSome = true := by
  induction wsl generalizing m with
  | nil =>
    obtain ⟨ws, hmem, _⟩ := h
    exact absurd hmem (List.not_mem_nil ws)
  | cons ws rest ih =>
    rw [List.foldl_cons]
    by_cases hf : ws.is_focused = true
    · apply foldl_workspacesStep_active_isSome
      simp [workspacesStep, hf, Dict.get?_set]
    · obtain ⟨w, hmem, hwf⟩ := h
      rcases List.mem_cons.mp hmem with heq | hmem2
      · subst heq
        exact absurd hwf hf
      · exact ih (workspacesStep now m ws) ⟨w, hmem2, hwf⟩

theorem wsInv_processEvent (m : NiriWindowManager) (e : Event) (now : Nat)
    (h : wsInv m) (hg : goodWorkspaceEvent m e) :
    wsInv (processEvent m e now).state := by
  cases e with
  | workspacesChanged wsl =>
    intro _
    show (Dict.get? (onWorkspacesChanged m wsl now).workspaces
      (onWorkspacesChanged m wsl now).active_workspace).isSome = true
    simp only [onWorkspacesChanged]
    exact foldl_workspacesStep_focused_isSome now wsl m hg
  | windowsChanged wl =>
    intro hl
    show (Dict.get? (onWindowsChanged m wl now).workspaces
      (onWindowsChanged m wl now).active_workspace).isSome = true
    obtain ⟨p1, p2, p3⟩ :=
      foldl_windowsStep_preserves now wl { m with windows := ([] : Dict Window) }
    simp only [onWindowsChanged] at hl ⊢
    rw [p1, p3]
    apply h
    rw [← p2]
    exact hl
  | windowClosed window_id =>
    cases hw : Dict.get? m.windows window_id <;> simp only [processEvent, hw] <;> exact h
  | windowOpenedOrChanged w =>
    cases hw : Dict.get? m.windows w.id <;> simp only [processEvent, hw] <;> exact h
  | windowFocusChanged window_id =>
    cases hw : Dict.get? m.windows window_id <;> simp only [processEvent, hw] <;> exact h
  | workspaceActivated workspace_id =>
    obtain ⟨w, hw⟩ := Option.isSome_iff_exists.mp hg
    simp only [processEvent, hw]
    intro _
    simp [Dict.get?_set]
  | workspaceUrgencyChanged workspace_id urgent =>
    cases hw : Dict.get? m.workspaces workspace_id with
    | none => simp only [processEvent, hw]; exact h
    | some ws =>
      simp only [processEvent, hw]
      intro hl
      rw [Dict.get?_set]
      by_cases hk : workspace_id = m.active_workspace
      · simp [hk]
      · simpa [hk] using h hl
  | windowUrgencyChanged window_id urgent =>
    cases hw : Dict.get? m.windows window_id <;> simp only [processEvent, hw] <;> exact h

/-- C6, counterexample: a first `WorkspacesChanged` snapshot with no focused
workspace sets the loaded flag while the active-workspace id (still the
initial `-1`) names no tracked workspace, and `get_active_workspace` then
raises `KeyError` instead of returning a workspace. -/
theorem claim_C6_counterexample :
    mSnapNoFocus.workspacesLoaded = true ∧
    Dict.get? mSnapNoFocus.workspaces mSnapNoFocus.active_workspace = none ∧
    mSnapNoFocus.get_active_workspace = Except.error keyError := by
  exact ⟨by decide, by decide, by rfl⟩

/-- C6 (amended): the invariant "once loaded, the active-workspace id names a
tracked workspace" is preserved by event application provided every
`WorkspacesChanged` snapshot contains a focused workspace and every
`WorkspaceActivated` references a tracked id; under the invariant,
`get_active_workspace` returns the mapped workspace when loaded and the
not-yet-loaded sentinel (`None`) before. -/
theorem claim_C6_amended (m : NiriWindowManager) (h : wsInv m) :
    (m.workspacesLoaded = false → m.get_active_workspace = Except.ok none) ∧
    (m.workspacesLoaded = true →
      ∃ w, Dict.get? m.workspaces m.active_workspace = some w ∧
        m.get_active_workspace = Except.ok (some w)) ∧
    (∀ e now, goodWorkspaceEvent m e → wsInv (processEvent m e now).state) := by
  refine ⟨?_, ?_, fun e now hg => wsInv_processEvent m e now h hg⟩
  · intro hl
    simp [NiriWindowManager.get_active_workspace, hl]
  · intro hl
    obtain ⟨w, hw⟩ := Option.isSome_iff_exists.mp (h hl)
    exact ⟨w, hw, by simp [NiriWindowManager.get_active_workspace, hl, hw]⟩

theorem claim_C6_witness :
    wsInv NiriWindowManager.init ∧
    (NiriWindowManager.init.workspacesLoaded = false →
      NiriWindowManager.init.get_active_workspace = Except.ok none) :=
  ⟨by intro hl; simp [NiriWindowManager.init] at hl,
    (claim_C6_amended NiriWindowManager.init
      (by intro hl; simp [NiriWindowManager.init] at hl)).1⟩

theorem update_fields (w : Window) (p : WindowPayload) (now : Nat) :
    (w.update p now).is_urgent = w.is_urgent ∧
    (w.update p now).last_focus_time = now ∧
    (w.update p now).id = w.id := by
  unfold Window.update
  cases hp : p.title with
  | none =>
    cases hq : p.workspace_id with
    | none => simp
    | some wid => by_cases h0 : wid = 0 <;> simp [h0]
  | some t =>
    by_cases ht : t = ""
    · cases hq : p.workspace_id with
      | none => simp [ht]
      | some wid => by_cases h0 : wid = 0 <;> simp [ht, h0]
    · cases hq : p.workspace_id with
      | none => simp [ht]
      | some wid => by_cases h0 : wid = 0 <;> simp [ht, h0]

theorem update_title_merge (w : Window) (p : WindowPayload) (now : Nat) (t : String)
    (hp : p.title = some t) (ht : t ≠ "") : (w.update p now).title = some t := by
  unfold Window.update
  rw [hp]
  cases hq : p.workspace_id with
  | none => simp [ht]
  | some wid => by_cases h0 : wid = 0 <;> simp [ht, h0]

theorem update_wsid_some (w : Window) (p : WindowPayload) (now : Nat) (k : Int)
    (hq : p.workspace_id = some k) (h0 : k ≠ 0) :
    (w.update p now).workspace_id = k := by
  unfold Window.update
  rw [hq]
  simp [h0]

theorem update_wsid_none (w : Window) (p : WindowPayload) (now : Nat)
    (hq : p.workspace_id = none) : (w.update p now).workspace_id = -1 := by
  unfold Window.update
  rw [hq]

/-- C7, counterexample: updating tracked window 10 with a payload whose
urgency flag is set merges the title but leaves the stored urgency unchanged
(`false`) — refuting that the urgency field is merged from the payload. -/
theorem claim_C7_counterexample :
    urgentPayload.is_urgent = true ∧
    Dict.get? (processEvent mWin10
        (Event.windowOpenedOrChanged urgentPayload) 3).state.windows 10 =
      some (win10Val.update urgentPayload 3) ∧
    (win10Val.update urgentPayload 3).is_urgent = false ∧
    (win10Val.update urgentPayload 3).title = some titleT := by
  decide

/-- C7 (amended): a `WindowOpenedOrChanged` for a tracked id replaces that
binding in place with the updated window — merging a non-empty title and a
present non-zero workspace id (an absent one resets to `-1`), setting the
focus time to now, never touching urgency — and emits nothing; for an
untracked id it inserts a fresh `Window` and emits `window-opened` exactly
once with that window. -/
theorem claim_C7_amended (m : NiriWindowManager) (p : WindowPayload) (now : Nat) :
    (∀ w, Dict.get? m.windows p.id = some w →
      processEvent m (Event.windowOpenedOrChanged p) now =
        ⟨{ m with windows := Dict.set m.windows p.id (w.update p now) }, [], none⟩ ∧
      (w.update p now).is_urgent = w.is_urgent ∧
      (w.update p now).last_focus_time = now ∧
      (w.update p now).id = w.id ∧
      (∀ t, p.title = some t → t ≠ "" → (w.update p now).title = some t) ∧
      (∀ k, p.workspace_id = some k → k ≠ 0 → (w.update p now).workspace_id = k) ∧
      (p.workspace_id = none → (w.update p now).workspace_id = -1)) ∧
    (Dict.get? m.windows p.id = none →
      processEvent m (Event.windowOpenedOrChanged p) now =
        ⟨{ m with windows := Dict.set m.windows p.id (Window.ofPayload p now) },
          [Emission.windowOpened (Window.ofPayload p now)], none⟩) := by
  constructor
  · intro w hw
    obtain ⟨u1, u2, u3⟩ := update_fields w p now
    exact ⟨by simp [processEvent, hw], u1, u2, u3,
      fun t hp ht => update_title_merge w p now t hp ht,
      fun k hq h0 => update_wsid_some w p now k hq h0,
      fun hq => update_wsid_none w p now hq⟩
  · intro hn
    simp [processEvent, hn]

theorem claim_C7_witness :
    Dict.get? mWin10.windows 10 = some win10Val ∧
    processEvent mWin10 (Event.windowOpenedOrChanged urgentPayload) 3 =
      ⟨{ mWin10 with
          windows := Dict.set mWin10.windows 10 (win10Val.update urgentPayload 3) },
        [], none⟩ :=
  ⟨by decide, ((claim_C7_amended mWin10 urgentPayload 3).1 win10Val (by decide)).1⟩

/-- C4, counterexample: in a loaded state with one window carrying the `-1`
workspace sentinel, `get_windows` includes it (one element) while
`get_n_windows` skips it (count 0) — refuting that the counting variant has
the same filter semantics, in particular for `-1`-sentinel windows. -/
theorem claim_C4_counterexample :
    mSentinel.get_n_windows true false = Except.ok 0 ∧
    mSentinel.get_windows true none false = Except.ok [crossVal] ∧
    (0 : Nat) ≠ [crossVal].length := by
  exact ⟨by rfl, by rfl, by decide⟩

/-- C4 (amended): `get_n_windows` equals the length of the `get_windows`
result with the same filters only on states where the windows snapshot has
loaded (`get_n_windows` alone is gated on that flag), both loaded flags are
set, the active workspace is tracked with a consistent id, and every
window's workspace id is tracked and differs from the `-1` sentinel;
`-1`-sentinel windows are included by `get_windows` but skipped by the
counting loops, so the two disagree on them. -/
theorem claim_C4_amended (m : NiriWindowManager) (cw : Workspace)
    (h1 : m.windowsLoaded = true) (h2 : m.workspacesLoaded = true)
    (h3 : Dict.get? m.workspaces m.active_workspace = some cw)
    (h4 : cw.id = m.active_workspace)
    (h5 : ∀ w ∈ Dict.values m.windows,
      w.workspace_id ≠ -1 ∧ (Dict.get? m.workspaces w.workspace_id).isSome = true)
    (aw ao : Bool) :
    ∃ l, m.get_windows aw none ao = Except.ok l ∧
      m.get_n_windows aw ao = Except.ok l.length := by
  have hact : m.get_active_workspace = Except.ok (some cw) := by
    simp [NiriWindowManager.get_active_workspace, h2, h3]
  cases ao with
  | false =>
    cases aw with
    | true =>
      refine ⟨_, rfl, ?_⟩
      simp [NiriWindowManager.get_n_windows, h1, hact, foldl_countStep, length_sortDesc]
      have hpt : ∀ a ∈ Dict.values m.windows,
          countPred m (fun window workspace => decide (window.workspace_id = cw.id)) a =
          (fun w => decide (w.workspace_id = -1) ||
            decide (w.workspace_id = m.active_workspace)) a := by
        intro a ha
        obtain ⟨hne, hsome⟩ := h5 a ha
        obtain ⟨ws, hws⟩ := Option.isSome_iff_exists.mp hsome
        simp only [countPred, NiriWindowManager.get_workspace, hws, h4]
        by_cases hv : a.workspace_id = m.active_workspace <;> simp [hv, hne]
      rw [List.filter_ext _ _ _ hpt]
    | false =>
      refine ⟨_, rfl, ?_⟩
      simp [NiriWindowManager.get_n_windows, h1, hact, foldl_countStep, length_sortDesc]
      intro a ha
      obtain ⟨hne, hsome⟩ := h5 a ha
      obtain ⟨ws, hws⟩ := Option.isSome_iff_exists.mp hsome
      simp [countPred, NiriWindowManager.get_workspace, hws]
  | true =>
    cases aw with
    | true =>
      refine ⟨sortDesc (List.filter
          (fun w => decide (w.workspace_id = -1) ||
            decide (w.workspace_id = m.active_workspace))
          (List.filter (activeOutputPred m cw) (Dict.values m.windows))), ?_, ?_⟩
      · simp [NiriWindowManager.get_windows, hact, filterActiveOutput_some]
      · simp [NiriWindowManager.get_n_windows, h1, hact, foldl_countStep, length_sortDesc]
        have hpt : ∀ a ∈ Dict.values m.windows,
            countPred m (fun window workspace =>
              decide (window.workspace_id = cw.id) &&
                decide (workspace.output = cw.output)) a =
            (fun a => (decide (a.workspace_id = -1) ||
              decide (a.workspace_id = m.active_workspace)) &&
              activeOutputPred m cw a) a := by
          intro a ha
          obtain ⟨hne, hsome⟩ := h5 a ha
          obtain ⟨ws, hws⟩ := Option.isSome_iff_exists.mp hsome
          simp only [countPred, activeOutputPred, NiriWindowManager.get_workspace, hws, h4]
          by_cases hv : a.workspace_id = m.active_workspace <;> simp [hv, hne]
        rw [List.filter_ext _ _ _ hpt]
    | false =>
      refine ⟨sortDesc (List.filter (activeOutputPred m cw) (Dict.values m.windows)),
        ?_, ?_⟩
      · simp [NiriWindowManager.get_windows, hact, filterActiveOutput_some]
      · simp [NiriWindowManager.get_n_windows, h1, hact, foldl_countStep, length_sortDesc]
        rfl

theorem claim_C4_witness :
    mTwoWin.windowsLoaded = true ∧ mTwoWin.workspacesLoaded = true ∧
    Dict.get? mTwoWin.workspaces mTwoWin.active_workspace = some cwWs1 ∧
    cwWs1.id = mTwoWin.active_workspace ∧
    (∀ w ∈ Dict.values mTwoWin.windows,
      w.workspace_id ≠ -1 ∧ (Dict.get? mTwoWin.workspaces w.workspace_id).isSome = true) ∧
    (∃ l, mTwoWin.get_windows true none true = Except.ok l ∧
      mTwoWin.get_n_windows true true = Except.ok l.length) :=
  ⟨by decide, by decide, by decide, by decide, by decide,
    claim_C4_amended mTwoWin cwWs1 (by decide) (by decide) (by decide) (by decide)
      (by decide) true true⟩

end Niriswitcher
